import Mathlib

/-!
Verification of the LLM-powered fact-checker pipeline
(`src/fact_checker/components/fact_checking.py` and
`src/fact_checker/components/data_ingestion.py`).

The effectful boundaries (HTTP calls to the LLM, the vector store, the
classifier) are modelled as oracle inputs: each component function takes the
outcome of its effectful call as an explicit argument and we embed the pure
post-processing the Python code performs on that outcome.  Python floats are
modelled as rationals; JSON values as an inductive type with a small strict
parser mirroring the behaviour of `json.loads` on the fragments the code
feeds it (integers only for numeric literals; unsupported literals parse to
failure, which the code treats the same way as any other parse failure).
-/

namespace FactChecker

/-- JSON values as produced by `json.loads`.  Numeric literals are modelled
as integers; object fields keep their textual order, with later duplicates
taking precedence on lookup, as in a Python dict built from parsed pairs. -/
inductive Json where
  | str (s : String)
  | num (n : Int)
  | bool (b : Bool)
  | null
  | arr (xs : List Json)
  | obj (fields : List (String × Json))

/-- The opening brace character, `chr(123)`. -/
def braceOpen : Char := Char.ofNat 123

/-- The closing brace character, `chr(125)`. -/
def braceClose : Char := Char.ofNat 125

/-- The double-quote character, `chr(34)`. -/
def quoteChar : Char := Char.ofNat 34

/-- Skip JSON whitespace. -/
def skipWs : List Char → List Char
  | c :: cs =>
    if c = ' ' ∨ c = '\n' ∨ c = '\t' ∨ c = '\r' then skipWs cs else c :: cs
  | [] => []

/-- Translate a JSON escape character to the character it denotes.  The
`\uXXXX` form is not modelled: it makes the parse fail, which the calling
code treats identically to any malformed response. -/
def escChar (e : Char) : Option Char :=
  if e = quoteChar then some quoteChar
  else if e = '\\' then some '\\'
  else if e = '/' then some '/'
  else if e = 'n' then some '\n'
  else if e = 't' then some '\t'
  else if e = 'r' then some '\r'
  else if e = 'b' then some (Char.ofNat 8)
  else if e = 'f' then some (Char.ofNat 12)
  else none

/-- Parse the body of a JSON string (after the opening quote), returning the
decoded string and the remaining input.  Raw control characters are
rejected, as by `json.loads` in strict mode. -/
def parseStrBody (acc : List Char) : List Char → Option (String × List Char)
  | [] => none
  | c :: cs =>
    if c = quoteChar then some (String.mk acc.reverse, cs)
    else if c = '\\' then
      match cs with
      | [] => none
      | e :: cs2 =>
        match escChar e with
        | some ec => parseStrBody (ec :: acc) cs2
        | none => none
    else if c.toNat < 32 then none
    else parseStrBody (c :: acc) cs

/-- Split a leading run of decimal digits from the input. -/
def splitDigits : List Char → List Char × List Char
  | [] => ([], [])
  | c :: cs =>
    if c.isDigit then
      let p := splitDigits cs
      (c :: p.1, p.2)
    else ([], c :: cs)

/-- Numeric value of a digit string. -/
def digitsVal (ds : List Char) : Nat :=
  ds.foldl (fun a c => 10 * a + (c.toNat - 48)) 0

/-- Parse a JSON integer literal.  Leading zeros are rejected as by
`json.loads`; a literal continuing with a fraction or exponent is not
modelled and parses to failure. -/
def parseNum (cs : List Char) : Option (Json × List Char) :=
  let (neg, cs1) :=
    match cs with
    | '-' :: r => (true, r)
    | _ => (false, cs)
  let p := splitDigits cs1
  match p.1 with
  | [] => none
  | d :: ds =>
    if d = '0' ∧ ds ≠ [] then none
    else
      match p.2 with
      | x :: _ =>
        if x = '.' ∨ x = 'e' ∨ x = 'E' then none
        else some (Json.num (if neg then -(digitsVal (d :: ds) : Int) else (digitsVal (d :: ds) : Int)), p.2)
      | [] => some (Json.num (if neg then -(digitsVal (d :: ds) : Int) else (digitsVal (d :: ds) : Int)), p.2)

/-- Test whether the second list starts with the first. -/
def startsWithChars : List Char → List Char → Bool
  | [], _ => true
  | _ :: _, [] => false
  | p :: ps, c :: cs => p = c && startsWithChars ps cs

mutual

/-- Parse one JSON value (fuelled recursion; the callers supply fuel ample
for the input length, so exhaustion never fires on inputs the Python code
parses). -/
def parseVal : Nat → List Char → Option (Json × List Char)
  | 0, _ => none
  | fuel + 1, cs =>
    match skipWs cs with
    | [] => none
    | c :: rest =>
      if c = quoteChar then
        (parseStrBody [] rest).map (fun p => (Json.str p.1, p.2))
      else if c = '[' then
        match skipWs rest with
        | ']' :: r2 => some (Json.arr [], r2)
        | cs2 => (parseArrItems fuel cs2).map (fun p => (Json.arr p.1, p.2))
      else if c = braceOpen then
        match skipWs rest with
        | [] => none
        | c2 :: r2 =>
          if c2 = braceClose then some (Json.obj [], r2)
          else (parseObjItems fuel (c2 :: r2)).map (fun p => (Json.obj p.1, p.2))
      else if startsWithChars [ 't', 'r', 'u', 'e'] (c :: rest) then
        some (Json.bool true, (c :: rest).drop 4)
      else if startsWithChars [ 'f', 'a', 'l', 's', 'e'] (c :: rest) then
        some (Json.bool false, (c :: rest).drop 5)
      else if startsWithChars [ 'n', 'u', 'l', 'l'] (c :: rest) then
        some (Json.null, (c :: rest).drop 4)
      else parseNum (c :: rest)

/-- Parse the comma-separated items of a JSON array up to the closing
bracket (the empty-array case is handled by the caller). -/
def parseArrItems : Nat → List Char → Option (List Json × List Char)
  | 0, _ => none
  | fuel + 1, cs =>
    match parseVal fuel cs with
    | none => none
    | some (v, rest) =>
      match skipWs rest with
      | ',' :: r2 => (parseArrItems fuel r2).map (fun p => (v :: p.1, p.2))
      | ']' :: r2 => some ([v], r2)
      | _ => none

/-- Parse the comma-separated fields of a JSON object up to the closing
brace (the empty-object case is handled by the caller). -/
def parseObjItems : Nat → List Char → Option (List (String × Json) × List Char)
  | 0, _ => none
  | fuel + 1, cs =>
    match skipWs cs with
    | [] => none
    | c :: rest =>
      if c = quoteChar then
        match parseStrBody [] rest with
        | none => none
        | some (k, r1) =>
          match skipWs r1 with
          | ':' :: r2 =>
            match parseVal fuel r2 with
            | none => none
            | some (v, r3) =>
              match skipWs r3 with
              | [] => none
              | c4 :: r4 =>
                if c4 = ',' then
                  (parseObjItems fuel r4).map (fun p => ((k, v) :: p.1, p.2))
                else if c4 = braceClose then some ([(k, v)], r4)
                else none
          | _ => none
      else none

end

/-- Model of `json.loads`: parse a whole string as one JSON value, requiring
only whitespace after it. -/
def json_loads (s : String) : Option Json :=
  match parseVal (2 * s.length + 2) s.data with
  | some (v, rest) =>
    match skipWs rest with
    | [] => some v
    | _ => none
  | none => none

/-- Take characters up to and including the first occurrence of `c`; `none`
if `c` never occurs. -/
def takeThrough (c : Char) : List Char → Option (List Char)
  | [] => none
  | x :: xs => if x = c then some [x] else (takeThrough c xs).map (x :: ·)

/-- Model of `re.search` for a non-greedy enclosed pattern with `re.DOTALL`
(such as an opening character, a shortest run of arbitrary characters, and a
closing character): the match starts at the leftmost opening character that
is followed by a closing character and extends to the first closing
character after it. -/
def searchEnclosed (o c : Char) : List Char → Option (List Char)
  | [] => none
  | x :: xs =>
    if x = o then
      match takeThrough c xs with
      | some body => some (x :: body)
      | none => searchEnclosed o c xs
    else searchEnclosed o c xs

/-- `re.search` for the brace-enclosed pattern used by `verify_claim`. -/
def findJsonObject (s : String) : Option String :=
  (searchEnclosed braceOpen braceClose s.data).map String.mk

/-- `re.search` for the bracket-enclosed pattern used by `extract_claims`. -/
def findJsonArray (s : String) : Option String :=
  (searchEnclosed '[' ']' s.data).map String.mk

/-- Python `str.lower()` (ASCII case folding suffices for the keyword scan
the code performs). -/
def toLowerStr (s : String) : String := String.mk (s.data.map Char.toLower)

/-- Python substring containment, `pat in s`. -/
def containsSub (pat : List Char) : List Char → Bool
  | [] => startsWithChars pat []
  | c :: cs => startsWithChars pat (c :: cs) || containsSub pat cs

/-- First binding of a key in a string-valued metadata dict. -/
def lookupStr (k : String) : List (String × String) → Option String
  | [] => none
  | p :: rest => if p.1 = k then some p.2 else lookupStr k rest

/-- First binding of a key in a JSON object field list. -/
def lookupJson (k : String) : List (String × Json) → Option Json
  | [] => none
  | p :: rest => if p.1 = k then some p.2 else lookupJson k rest

/-- Python `dict(...).get(k, d)` on parsed JSON object fields: later
duplicate keys win, absent keys give the default. -/
def objGet (fields : List (String × Json)) (k : String) (d : Json) : Json :=
  (lookupJson k fields.reverse).getD d

/-- The outcome of an LLM call at the process boundary: either the response text or the
message of the exception the call raised. -/
abbrev LLMOutcome := Except String String

/-- `FactCheckingComponents.extract_claims`, with the LLM call outcome as an
oracle argument.  Mirrors the source: search the response for a
bracket-enclosed substring; on a match, `json.loads` it and return the
parsed list; on no match, a parse failure, or a raised exception, return
the single-element list holding the original input text. -/
def extract_claims (text : String) (response : LLMOutcome) : List Json :=
  match response with
  | .error _ => [Json.str text]
  | .ok resp =>
    match findJsonArray resp with
    | some m =>
      match json_loads m with
      | some (Json.arr claims) => claims
      | _ => [Json.str text]
    | none => [Json.str text]

/-- The keyword-scanning fallback of `verify_claim` (lines 253-260 of
`fact_checking.py`). -/
def keywordFallback (resp : String) : Json × Json :=
  let lower := (toLowerStr resp).data
  if containsSub [ 't', 'r', 'u', 'e'] lower &&
      ! containsSub [ 'f', 'a', 'l', 's', 'e'] lower then
    (Json.str "True", Json.str resp)
  else if containsSub [ 'f', 'a', 'l', 's', 'e'] lower then
    (Json.str "False", Json.str resp)
  else
    (Json.str "Unverifiable", Json.str resp)

/-- `FactCheckingComponents.verify_claim`, with the LLM call outcome as an
oracle argument; returns the `(verdict, reasoning)` pair.  Mirrors the
source: on a raised exception return Unverifiable with the error text; on a
brace-enclosed substring that parses as a JSON object read the `verdict`
and `reasoning` fields with their defaults; otherwise fall back to keyword
scanning of the raw response. -/
def verify_claim (claim : Json) (evidence : List String) (response : LLMOutcome) :
    Json × Json :=
  let _prompt_inputs := (claim, String.intercalate "\n" (evidence.map (fun e => "- " ++ e)))
  match response with
  | .error msg => (Json.str "Unverifiable", Json.str ("Error during verification: " ++ msg))
  | .ok resp =>
    match findJsonObject resp with
    | some m =>
      match json_loads m with
      | some (Json.obj fields) =>
        (objGet fields "verdict" (Json.str "Unverifiable"),
         objGet fields "reasoning" (Json.str "Unable to determine."))
      | _ => keywordFallback resp
    | none => keywordFallback resp

/-- The raw result of `chroma_collection.query` for one query embedding:
parallel lists of documents, L2 distances and metadata dicts. -/
structure QueryResult where
  documents : List String
  distances : List ℚ
  metadatas : List (List (String × String))

/-- The distance-to-similarity transform of `retrieve_facts`, line 204. -/
def similarity (d : ℚ) : ℚ := 1 / (1 + d)

/-- `RetrievalEntity` (entity module). -/
structure RetrievalEntity where
  query : Json
  retrieved_documents : List String
  similarity_scores : List ℚ
  sources : List String

/-- The pure part of `FactCheckingComponents.retrieve_facts`: package the
store query result, converting every distance `d` to the similarity score
`1 / (1 + d)` and reading each metadata source with default `Unknown`. -/
def retrieve_facts (claim : Json) (qr : QueryResult) : RetrievalEntity :=
  { query := claim
  , retrieved_documents := qr.documents
  , similarity_scores := qr.distances.map (fun d => 1 / (1 + d))
  , sources := qr.metadatas.map (fun m => (lookupStr "source" m).getD "Unknown") }

/-- `FactCheckEntity` (entity module): the final pipeline output.  String
fields that the code fills from parsed JSON are modelled as JSON values. -/
structure FactCheckEntity where
  original_input : String
  claim : Json
  verdict : Json
  evidence : List String
  reasoning : Json
  confidence_score : Option ℚ

/-- The three downstream pipeline stages `run` may invoke after claim
detection. -/
inductive Stage where
  | claimExtraction
  | retrieval
  | verification
  deriving DecidableEq

/-- The oracle environment of one `run` invocation: the claim detection
outcome, the LLM call outcomes of the claim extraction and verification
steps, and the store query result of the retrieval step. -/
structure Env where
  detect : Bool × ℚ
  extractResp : LLMOutcome
  queryRes : QueryResult
  verifyResp : LLMOutcome

/-- `FactCheckingComponents.run`: the complete pipeline, returning the
result together with the list of downstream stages it invoked (in order).
Mirrors the source: if detection says the input is not claim-worthy, return
the short-circuit Unverifiable result without invoking any later stage;
otherwise extract claims, take `claims[0]` when the list is non-empty and
the input text otherwise, retrieve facts, verify, and assemble the result
with confidence `max(similarity_scores)` when the score list is non-empty
and `0.0` otherwise. -/
def run (env : Env) (input_text : String) : FactCheckEntity × List Stage :=
  let is_claim_worthy := env.detect.1
  let claim_score := env.detect.2
  if !is_claim_worthy then
    ({ original_input := input_text
     , claim := Json.str input_text
     , verdict := Json.str "Unverifiable"
     , evidence := []
     , reasoning := Json.str
         "The input does not appear to contain a factual claim that can be verified."
     , confidence_score := some claim_score }, [])
  else
    let claims := extract_claims input_text env.extractResp
    let main_claim :=
      match claims with
      | [] => Json.str input_text
      | c :: _ => c
    let retrieval_result := retrieve_facts main_claim env.queryRes
    let vr := verify_claim main_claim retrieval_result.retrieved_documents env.verifyResp
    ({ original_input := input_text
     , claim := main_claim
     , verdict := vr.1
     , evidence := retrieval_result.retrieved_documents
     , reasoning := vr.2
     , confidence_score := some
         (match retrieval_result.similarity_scores with
          | [] => (0 : ℚ)
          | x :: xs => xs.foldl max x) }
    , [Stage.claimExtraction, Stage.retrieval, Stage.verification])

/-- One record loaded from the verified-facts CSV
(`DataIngestionComponents._load_csv_data`). -/
structure VerifiedFact where
  id : String
  statement : String
  source : String
  date : String
  category : String

/-- `DataIngestionComponents._embed_and_store`, with the ChromaDB collection
modelled by its list of stored documents.  Mirrors the source: if the
collection already holds any documents, skip ingestion and return the
existing count unchanged; otherwise add one document per fact (its
statement) and return how many were added.  Returns the updated collection
together with the reported count. -/
def embed_and_store (facts : List VerifiedFact) (collection : List String) :
    List String × Nat :=
  let existing_count := collection.length
  if existing_count > 0 then (collection, existing_count)
  else
    let documents := facts.map (fun f => f.statement)
    (collection ++ documents, documents.length)

/-! ## Helper lemmas -/

theorem le_foldl_max (l : List ℚ) : ∀ a b : ℚ, a ≤ b → a ≤ l.foldl max b := by
  induction l with
  | nil => intro a b h; simpa using h
  | cons c t ih =>
    intro a b h
    exact ih a (max b c) (le_trans h (le_max_left b c))

theorem foldl_max_mem (l : List ℚ) : ∀ a : ℚ, l.foldl max a ∈ a :: l := by
  induction l with
  | nil => intro a; simp
  | cons c t ih =>
    intro a
    rw [List.foldl_cons]
    rcases List.mem_cons.mp (ih (max a c)) with h1 | h1
    · rcases max_choice a c with h2 | h2
      · rw [h1, h2]; exact List.mem_cons_self _ _
      · rw [h1, h2]; exact List.mem_cons_of_mem _ (List.mem_cons_self _ _)
    · exact List.mem_cons_of_mem _ (List.mem_cons_of_mem _ h1)

theorem foldl_max_ge (l : List ℚ) : ∀ a y : ℚ, y ∈ a :: l → y ≤ l.foldl max a := by
  induction l with
  | nil =>
    intro a y hy
    simp at hy
    simp [hy]
  | cons c t ih =>
    intro a y hy
    rw [List.foldl_cons]
    rcases List.mem_cons.mp hy with h1 | h1
    · exact h1 ▸ le_foldl_max t a (max a c) (le_max_left a c)
    · rcases List.mem_cons.mp h1 with h2 | h2
      · exact h2 ▸ le_foldl_max t c (max a c) (le_max_right a c)
      · exact ih (max a c) y (List.mem_cons_of_mem _ h2)

theorem similarity_pos (d : ℚ) (hd : 0 ≤ d) : 0 < similarity d := by
  have h : (0 : ℚ) < 1 + d := by linarith
  simp only [similarity]
  exact div_pos one_pos h

theorem similarity_le_one (d : ℚ) (hd : 0 ≤ d) : similarity d ≤ 1 := by
  have h : (0 : ℚ) < 1 + d := by linarith
  simp only [similarity]
  rw [div_le_one h]
  linarith

theorem similarity_lt_of_lt (d1 d2 : ℚ) (h0 : 0 ≤ d1) (h : d1 < d2) :
    similarity d2 < similarity d1 := by
  have h1 : (0 : ℚ) < 1 + d1 := by linarith
  have h2 : 1 + d1 < 1 + d2 := by linarith
  simp only [similarity]
  exact one_div_lt_one_div_of_lt h1 h2

theorem run_confidence_eq (env : Env) (input : String) (h : env.detect.1 = true) :
    (run env input).1.confidence_score =
      some (match env.queryRes.distances.map (fun d => 1 / (1 + d)) with
            | [] => (0 : ℚ)
            | x :: xs => xs.foldl max x) := by
  simp [run, h, retrieve_facts]

theorem run_evidence_eq (env : Env) (input : String) (h : env.detect.1 = true) :
    (run env input).1.evidence = env.queryRes.documents := by
  simp [run, h, retrieve_facts]

/-! ## Claim theorems -/

/-- Claim C1: the code does not keep the verdict inside the documented
three-value domain.  When the verifier response carries a parseable JSON
object, `verify_claim` returns its `verdict` field verbatim: the response
holding the object with verdict `Maybe` yields the verdict `Maybe`, which
matches none of `True`, `False`, `Unverifiable`, not even up to case
folding — contradicting the three-value domain the entity declaration
documents for the verdict field. -/
theorem verify_claim_verdict_escapes_domain :
    verify_claim (Json.str "The sky is green.") []
        (Except.ok "\x7b\"verdict\": \"Maybe\", \"reasoning\": \"The evidence is mixed.\"\x7d")
      = (Json.str "Maybe", Json.str "The evidence is mixed.") ∧
    ("Maybe" ≠ "True" ∧ "Maybe" ≠ "False" ∧ "Maybe" ≠ "Unverifiable" ∧
      toLowerStr "Maybe" ≠ toLowerStr "True" ∧
      toLowerStr "Maybe" ≠ toLowerStr "False" ∧
      toLowerStr "Maybe" ≠ toLowerStr "Unverifiable") :=
  ⟨rfl, by decide⟩

/-- Claim C2, counterexample: `extract_claims` is not never-empty.  When the
extractor response is the literal text of an empty JSON array, the bracket
search matches it, `json.loads` yields the empty list, and `extract_claims`
returns it unchanged: the empty sequence. -/
theorem extract_claims_empty_counterexample :
    extract_claims "The sky is blue." (Except.ok "[]") = ([] : List Json) := rfl

/-- Claim C2 as amended: for every input text and extractor response,
either the response contains a parseable JSON array and `extract_claims`
returns exactly its elements (a list that may be empty), or it returns the
single-element list holding the original input text; a raised extractor
error also yields that single-element list. -/
theorem extract_claims_parse_or_fallback (text resp : String) :
    ((∃ m l, findJsonArray resp = some m ∧ json_loads m = some (Json.arr l) ∧
        extract_claims text (Except.ok resp) = l) ∨
      extract_claims text (Except.ok resp) = [Json.str text]) ∧
    (∀ e : String, extract_claims text (Except.error e) = [Json.str text]) := by
  constructor
  · cases hm : findJsonArray resp with
    | none => right; simp [extract_claims, hm]
    | some m =>
      cases hj : json_loads m with
      | none => right; simp [extract_claims, hm, hj]
      | some v =>
        cases v with
        | arr l => left; exact ⟨m, l, rfl, hj, by simp [extract_claims, hm, hj]⟩
        | str s => right; simp [extract_claims, hm, hj]
        | num n => right; simp [extract_claims, hm, hj]
        | bool b => right; simp [extract_claims, hm, hj]
        | null => right; simp [extract_claims, hm, hj]
        | obj f => right; simp [extract_claims, hm, hj]
  · intro e; rfl

/-- Claim C3: `_embed_and_store` is idempotent.  If the store already holds
at least one record the call returns the existing count with the store
unchanged, and in every case running the step twice against the same corpus
and store yields exactly the same final store and reported count as running
it once. -/
theorem embed_and_store_idempotent (facts : List VerifiedFact) (store : List String) :
    (0 < store.length → embed_and_store facts store = (store, store.length)) ∧
    embed_and_store facts (embed_and_store facts store).1 =
      embed_and_store facts store := by
  constructor
  · intro h
    simp [embed_and_store, h]
  · by_cases h : 0 < store.length
    · simp [embed_and_store, h]
    · have hs : store = [] := List.length_eq_zero.mp (Nat.eq_zero_of_not_pos h)
      subst hs
      by_cases hf : facts.map (fun f => f.statement) = []
      · simp [embed_and_store, hf]
      · have hlen : 0 < (facts.map (fun f => f.statement)).length :=
          List.length_pos.mpr hf
        simp [embed_and_store, hlen]

/-- Claim C3, witness: a store already holding one document is returned
unchanged with its existing count. -/
theorem embed_and_store_idempotent_witness :
    embed_and_store [] ["existing fact"] = (["existing fact"], 1) :=
  (embed_and_store_idempotent [] ["existing fact"]).1 (by decide)

/-- Claim C4: the retriever converts every distance with the transform
`1 / (1 + d)`, and that transform is strictly decreasing on non-negative
distances, maps distance `0` to exactly `1`, and lands in `(0, 1]` for every
non-negative distance. -/
theorem similarity_transform_spec :
    (∀ (claim : Json) (qr : QueryResult),
      (retrieve_facts claim qr).similarity_scores = qr.distances.map similarity) ∧
    (∀ d1 d2 : ℚ, 0 ≤ d1 → d1 < d2 → similarity d1 > similarity d2) ∧
    similarity 0 = 1 ∧
    (∀ d : ℚ, 0 ≤ d → 0 < similarity d ∧ similarity d ≤ 1) := by
  refine ⟨fun claim qr => rfl, fun d1 d2 h0 h => similarity_lt_of_lt d1 d2 h0 h, by norm_num [similarity], fun d hd => ⟨similarity_pos d hd, similarity_le_one d hd⟩⟩

/-- Claim C4, witness: concrete instances of the transform properties at
distances 0, 1, 2 and 3. -/
theorem similarity_transform_spec_witness :
    (retrieve_facts (Json.str "q") ⟨["doc"], [3], [[]]⟩).similarity_scores = [3].map similarity ∧
    similarity 1 > similarity 2 ∧
    similarity 0 = 1 ∧
    0 < similarity 3 ∧ similarity 3 ≤ 1 :=
  ⟨similarity_transform_spec.1 (Json.str "q") ⟨["doc"], [3], [[]]⟩,
   similarity_transform_spec.2.1 1 2 (by norm_num) (by norm_num),
   similarity_transform_spec.2.2.1,
   (similarity_transform_spec.2.2.2 3 (by norm_num)).1,
   (similarity_transform_spec.2.2.2 3 (by norm_num)).2⟩

/-- Claim C5: when claim detection reports not-claim-worthy with score `s`,
`run` short-circuits to the Unverifiable result with empty evidence, the
fixed explanatory reasoning string and confidence equal to `s`, and its
stage trace is empty: the claim extraction, retrieval and verification
stages are never invoked. -/
theorem run_short_circuit_unverifiable (env : Env) (input : String) (s : ℚ)
    (h : env.detect = (false, s)) :
    run env input =
      ({ original_input := input
       , claim := Json.str input
       , verdict := Json.str "Unverifiable"
       , evidence := []
       , reasoning := Json.str
           "The input does not appear to contain a factual claim that can be verified."
       , confidence_score := some s }, []) := by
  simp [run, h]

/-- Claim C5, witness: the classifier outcome `(false, 1/5)` on the input
`hello there` short-circuits as specified, touching no downstream stage. -/
theorem run_short_circuit_unverifiable_witness :
    run { detect := (false, 1/5)
        , extractResp := Except.error "never called"
        , queryRes := ⟨[], [], []⟩
        , verifyResp := Except.error "never called" } "hello there" =
      ({ original_input := "hello there"
       , claim := Json.str "hello there"
       , verdict := Json.str "Unverifiable"
       , evidence := []
       , reasoning := Json.str
           "The input does not appear to contain a factual claim that can be verified."
       , confidence_score := some (1/5) }, []) :=
  run_short_circuit_unverifiable _ "hello there" (1/5) rfl

/-- Claim C6: on the normal (non-short-circuit) path, with documents and
distances aligned as the store returns them, the confidence score of the
result is `0` when no document was retrieved, and otherwise is the maximum
of the retrieval similarity scores: a member of the score list that bounds
every score. -/
theorem run_confidence_from_retrieval (env : Env) (input : String)
    (h : env.detect.1 = true)
    (hlen : env.queryRes.documents.length = env.queryRes.distances.length) :
    ((run env input).1.evidence = [] → (run env input).1.confidence_score = some 0) ∧
    ((run env input).1.evidence ≠ [] →
      ∃ m, (run env input).1.confidence_score = some m ∧
        m ∈ env.queryRes.distances.map (fun d => 1 / (1 + d)) ∧
        ∀ y ∈ env.queryRes.distances.map (fun d => 1 / (1 + d)), y ≤ m) := by
  have hconf := run_confidence_eq env input h
  have hev := run_evidence_eq env input h
  constructor
  · intro hempty
    rw [hev] at hempty
    have hd : env.queryRes.distances = [] := by
      rw [hempty] at hlen
      exact List.length_eq_zero.mp hlen.symm
    rw [hconf, hd]
    rfl
  · intro hne
    rw [hev] at hne
    cases hds : env.queryRes.distances.map (fun d => 1 / (1 + d)) with
    | nil =>
      exfalso
      apply hne
      have hd : env.queryRes.distances = [] := List.map_eq_nil_iff.mp hds
      rw [← List.length_eq_zero, hlen, hd]
      rfl
    | cons x xs =>
      refine ⟨xs.foldl max x, ?_, ?_, ?_⟩
      · rw [hconf, hds]
      · exact foldl_max_mem xs x
      · intro y hy
        exact foldl_max_ge xs x y hy

/-- Claim C6, witness: with one document retrieved at distance 1, the
confidence is the maximum (here: only) similarity score. -/
theorem run_confidence_from_retrieval_witness :
    ∃ m,
      (run ⟨(true, 1/2), Except.ok "no json", ⟨["d1"], [1], []⟩,
          Except.ok "true"⟩ "input").1.confidence_score = some m ∧
      m ∈ ([1] : List ℚ).map (fun d => 1 / (1 + d)) ∧
      ∀ y ∈ ([1] : List ℚ).map (fun d => 1 / (1 + d)), y ≤ m :=
  (run_confidence_from_retrieval
      ⟨(true, 1/2), Except.ok "no json", ⟨["d1"], [1], []⟩, Except.ok "true"⟩
      "input" rfl rfl).2 (by decide)

/-- Claim C7: whenever the classifier score lies in `[0, 1]` and every
distance the store returns is non-negative, the confidence score of a `run`
result, when present, lies in `[0, 1]` — on the short-circuit path it is
the classifier score, on the normal path the maximum similarity or `0`. -/
theorem run_confidence_bounded (env : Env) (input : String)
    (h0 : 0 ≤ env.detect.2) (h1 : env.detect.2 ≤ 1)
    (hdist : ∀ d ∈ env.queryRes.distances, 0 ≤ d)
    (c : ℚ) (hc : (run env input).1.confidence_score = some c) :
    0 ≤ c ∧ c ≤ 1 := by
  cases hb : env.detect.1 with
  | false =>
    have hsc : (run env input).1.confidence_score = some env.detect.2 := by
      simp [run, hb]
    rw [hsc] at hc
    have he : env.detect.2 = c := Option.some.inj hc
    rw [← he]
    exact ⟨h0, h1⟩
  | true =>
    have hconf := run_confidence_eq env input hb
    rw [hconf] at hc
    cases hds : env.queryRes.distances.map (fun d => 1 / (1 + d)) with
    | nil =>
      rw [hds] at hc
      have he : (0 : ℚ) = c := Option.some.inj hc
      rw [← he]
      norm_num
    | cons x xs =>
      rw [hds] at hc
      have hcm : xs.foldl max x = c := Option.some.inj hc
      have hmem : xs.foldl max x ∈ x :: xs := foldl_max_mem xs x
      rw [← hds] at hmem
      obtain ⟨d, hdmem, hde⟩ := List.mem_map.mp hmem
      have hsim : (1 : ℚ) / (1 + d) = xs.foldl max x := hde
      have hd0 := hdist d hdmem
      rw [← hcm, ← hsim]
      constructor
      · have hp := similarity_pos d hd0
        simp only [similarity] at hp
        exact hp.le
      · have hl := similarity_le_one d hd0
        simp only [similarity] at hl
        exact hl

/-- Claim C7, witness: with classifier score `1/2` and one distance 1, the
concrete confidence `1/2` is bounded by `[0, 1]`. -/
theorem run_confidence_bounded_witness :
    (run ⟨(true, 1/2), Except.ok "no json", ⟨["d1"], [1], []⟩,
        Except.ok "true"⟩ "input").1.confidence_score = some (1/2) ∧
    (0 ≤ (1 : ℚ)/2 ∧ (1 : ℚ)/2 ≤ 1) :=
  ⟨by rw [run_confidence_eq ⟨(true, 1/2), Except.ok "no json", ⟨["d1"], [1], []⟩, Except.ok "true"⟩ "input" rfl]; norm_num,
   run_confidence_bounded
     ⟨(true, 1/2), Except.ok "no json", ⟨["d1"], [1], []⟩, Except.ok "true"⟩
     "input" (by norm_num) (by norm_num)
     (by intro d hd; fin_cases hd; norm_num)
     (1/2)
     (by rw [run_confidence_eq ⟨(true, 1/2), Except.ok "no json", ⟨["d1"], [1], []⟩, Except.ok "true"⟩ "input" rfl]; norm_num)⟩

/-- Claim C8: when the verifier response carries no parseable JSON object
(no brace-enclosed match, or a match `json.loads` rejects), `verify_claim`
falls back to keyword scanning of the lower-cased response: `true` without
`false` gives verdict True, else `false` gives verdict False, else
Unverifiable — and the reasoning is the raw response text itself. -/
theorem verify_claim_keyword_fallback (claim : Json) (evidence : List String)
    (resp : String)
    (h : ∀ m, findJsonObject resp = some m → json_loads m = none) :
    verify_claim claim evidence (Except.ok resp) =
      (if containsSub [ 't', 'r', 'u', 'e'] (toLowerStr resp).data &&
          ! containsSub [ 'f', 'a', 'l', 's', 'e'] (toLowerStr resp).data then
        (Json.str "True", Json.str resp)
      else if containsSub [ 'f', 'a', 'l', 's', 'e'] (toLowerStr resp).data then
        (Json.str "False", Json.str resp)
      else
        (Json.str "Unverifiable", Json.str resp)) := by
  cases hm : findJsonObject resp with
  | none => simp [verify_claim, hm, keywordFallback]
  | some m =>
    have hj := h m hm
    simp [verify_claim, hm, hj, keywordFallback]

/-- Claim C8, witness: the non-JSON response about a false statement yields
verdict False with the raw response as reasoning. -/
theorem verify_claim_keyword_fallback_witness :
    verify_claim (Json.str "The statement") []
        (Except.ok "This statement appears to be false based on evidence.") =
      (Json.str "False",
       Json.str "This statement appears to be false based on evidence.") := by
  have hnone :
      findJsonObject "This statement appears to be false based on evidence." = none := by
    decide
  have h := verify_claim_keyword_fallback (Json.str "The statement") []
    "This statement appears to be false based on evidence."
    (fun m hm => by rw [hnone] at hm; exact Option.noConfusion hm)
  rw [h]
  rfl

/-- Claim C9: when the verifier LLM call raises, `verify_claim` does not
propagate the error: for every claim, evidence list and error message it
returns the Unverifiable verdict with reasoning `Error during verification: `
followed by the error message. -/
theorem verify_claim_error_degrades (claim : Json) (evidence : List String)
    (msg : String) :
    verify_claim claim evidence (Except.error msg) =
      (Json.str "Unverifiable",
       Json.str ("Error during verification: " ++ msg)) := rfl

/-- Claim C10: on the normal path, `run` never indexes out of bounds into
the extracted claim list: when `extract_claims` returns the empty list the
original input text becomes the main claim and the verdict still comes from
the verifier; when it returns a non-empty list the head becomes the main
claim; in both cases the evidence comes from the store and all three
downstream stages are invoked. -/
theorem run_empty_claims_safe (env : Env) (input : String)
    (h : env.detect.1 = true) :
    (extract_claims input env.extractResp = [] →
      (run env input).1.claim = Json.str input ∧
      (run env input).1.verdict =
        (verify_claim (Json.str input) env.queryRes.documents env.verifyResp).1) ∧
    (∀ c cs, extract_claims input env.extractResp = c :: cs →
      (run env input).1.claim = c) ∧
    (run env input).1.evidence = env.queryRes.documents ∧
    (run env input).2 = [Stage.claimExtraction, Stage.retrieval, Stage.verification] := by
  refine ⟨fun he => ?_, fun c cs he => ?_, run_evidence_eq env input h, ?_⟩
  · constructor
    · simp [run, h, he]
    · simp [run, h, he, retrieve_facts]
  · simp [run, h, he]
  · simp [run, h]

/-- Claim C10, witness: an extractor response holding an empty JSON array
makes `extract_claims` return the empty list, and `run` still completes,
using the input text as the claim and invoking all three stages. -/
theorem run_empty_claims_safe_witness :
    (run ⟨(true, 1/2), Except.ok "[]", ⟨["doc"], [0], []⟩, Except.ok "true"⟩
        "input text").1.claim = Json.str "input text" ∧
    (run ⟨(true, 1/2), Except.ok "[]", ⟨["doc"], [0], []⟩, Except.ok "true"⟩
        "input text").2 =
      [Stage.claimExtraction, Stage.retrieval, Stage.verification] :=
  ⟨((run_empty_claims_safe
      ⟨(true, 1/2), Except.ok "[]", ⟨["doc"], [0], []⟩, Except.ok "true"⟩
      "input text" rfl).1 rfl).1,
   (run_empty_claims_safe
      ⟨(true, 1/2), Except.ok "[]", ⟨["doc"], [0], []⟩, Except.ok "true"⟩
      "input text" rfl).2.2.2⟩

end FactChecker
